import Mathlib

/-!
Shallow embedding of the order/payment/shipment logic of the maagnuskleid
storefront (Next.js API route handlers and ShipRocket service library),
with theorems checking the behavioural claims of its specification.

Conventions of the embedding:
* JS strings stay `String`, JS numbers that carry money or rates become `ℚ`,
  millisecond timestamps become `Int`.
* Database rows and external-API results reached through the Supabase or
  carrier clients are passed in explicitly as environment records; an
  external call that can throw is an `Except String` value in the
  environment.
* A handler's observable side effects (order writes, carrier API calls,
  audit-log inserts) are returned as an explicit effect trace.
-/

/- ===================== Carrier status webhook (app/api/webhooks/shiprocket/route.ts) ===================== -/

/-- The fixed lookup table of `mapShipRocketStatus`: carrier status string
(uppercase key) to internal order status. -/
def statusMap : List (String × String) :=
  [("PICKUP SCHEDULED", "ready_to_ship"),
   ("PICKED UP", "shipped"),
   ("IN TRANSIT", "shipped"),
   ("OUT FOR DELIVERY", "out_for_delivery"),
   ("DELIVERED", "delivered"),
   ("RTO IN TRANSIT", "return_in_transit"),
   ("RTO DELIVERED", "returned"),
   ("CANCELLED", "cancelled"),
   ("LOST", "lost"),
   ("DAMAGED", "damaged")]

/-- ASCII uppercasing, modelling `String.prototype.toUpperCase` on the ASCII
status strings this webhook deals in. -/
def upperAscii (s : String) : String := String.mk (s.data.map Char.toUpper)

/-- `mapShipRocketStatus`: uppercase the incoming carrier status, look it up in
the table, default to `"processing"`. -/
def mapShipRocketStatus (shipRocketStatus : String) : String :=
  (statusMap.lookup (upperAscii shipRocketStatus)).getD "processing"

/-- Body of the (unauthenticated) carrier status webhook, after the loose
shape guard. -/
structure SRWebhookBody where
  order_id : Option String
  awb : Option String
  courier_name : Option String
  current_status : Option String
  shipment_status : Option String
  edd : Option Int
deriving Repr, DecidableEq

/-- The raw status string the webhook works from:
`current_status ?? shipment_status ?? ""`. -/
def rawStatusOf (b : SRWebhookBody) : String :=
  b.current_status.getD (b.shipment_status.getD "")

/-- The order row as read and updated by the carrier webhook handler. -/
structure OrderRow where
  id : String
  order_number : String
  order_status : String
  shiprocket_status : Option String
  shipped_at : Option Int
  delivered_at : Option Int
  awb_number : Option String
  courier_name : Option String
  expected_delivery_date : Option Int
  updated_at : Option Int
deriving Repr, DecidableEq

/-- The update the carrier webhook `POST` applies to the matched order:
`order_status` is set to the mapped status unconditionally; `shipped_at` /
`delivered_at` are stamped only on first transition; `awb_number` and
`courier_name` are filled only when previously empty. -/
def shiprocketWebhookUpdate (order : OrderRow) (b : SRWebhookBody) (now : Int) : OrderRow :=
  let raw := rawStatusOf b
  let newStatus := mapShipRocketStatus raw
  { order with
    shiprocket_status := some raw
    order_status := newStatus
    updated_at := some now
    shipped_at :=
      if newStatus = "shipped" ∧ order.shipped_at = none then some now else order.shipped_at
    delivered_at :=
      if newStatus = "delivered" ∧ order.delivered_at = none then some now else order.delivered_at
    expected_delivery_date :=
      match b.edd with
      | some e => some e
      | none => order.expected_delivery_date
    awb_number :=
      match b.awb with
      | some a => if order.awb_number = none then some a else order.awb_number
      | none => order.awb_number
    courier_name :=
      match b.courier_name with
      | some c => if order.courier_name = none then some c else order.courier_name
      | none => order.courier_name }

/-- Rank of an internal order status in the forward shipment ordering used by
the specification (`pending → confirmed → processing → ready_to_ship →
shipped → out_for_delivery → delivered`). -/
def shipmentRank (s : String) : Nat :=
  if s = "pending" then 0
  else if s = "confirmed" then 1
  else if s = "processing" then 2
  else if s = "ready_to_ship" then 3
  else if s = "shipped" then 4
  else if s = "out_for_delivery" then 5
  else if s = "delivered" then 6
  else 7

/-- A concrete already-delivered order row, used to exhibit a backward
webhook transition. -/
def deliveredOrderRow : OrderRow :=
  { id := "o1", order_number := "MK-1001", order_status := "delivered",
    shiprocket_status := some "DELIVERED", shipped_at := some 100,
    delivered_at := some 200, awb_number := some "AWB1",
    courier_name := some "Delhivery", expected_delivery_date := some 150,
    updated_at := some 200 }

/-- A webhook body carrying an earlier carrier status than the order's
current one. -/
def inTransitBody : SRWebhookBody :=
  { order_id := some "MK-1001", awb := some "AWB1", courier_name := some "Delhivery",
    current_status := some "IN TRANSIT", shipment_status := none, edd := none }

/- ===================== Checkout page (app/checkout/page.tsx) ===================== -/

/-- `COD_FEE = 100`: the flat fee for Cash on Delivery. -/
def COD_FEE : ℚ := 100

/-- `shippingCost = 0` in the checkout component. -/
def shippingCost : ℚ := 0

/-- `codCharge = paymentMethod === "cod" ? COD_FEE : 0`. -/
def codChargeOf (paymentMethod : String) : ℚ :=
  if paymentMethod = "cod" then COD_FEE else 0

/-- `finalTotal = total + shippingCost + codCharge`. -/
def finalTotalOf (paymentMethod : String) (total : ℚ) : ℚ :=
  total + shippingCost + codChargeOf paymentMethod

/-- The payload `createOrder` is called with at checkout (only the fields the
claims are about). -/
structure NewOrderPayload where
  subtotal : ℚ
  shipping_cost : ℚ
  cod_charge : ℚ
  total : ℚ
  payment_method : String
  payment_status : String
  order_status : String
deriving Repr, DecidableEq

/-- The order record `handleCODOrder` creates: `cod_charge := COD_FEE`,
`total := finalTotal`, `payment_method := "cod"`, `payment_status := "pending"`,
`order_status := "confirmed"`. `total` is the cart total in the component. -/
def handleCODOrderPayload (total : ℚ) : NewOrderPayload :=
  { subtotal := total
    shipping_cost := shippingCost
    cod_charge := COD_FEE
    total := finalTotalOf "cod" total
    payment_method := "cod"
    payment_status := "pending"
    order_status := "confirmed" }

/-- The order record `handleRazorpayOrder` creates: `cod_charge := 0`,
`payment_method := "razorpay"`, `payment_status := "pending"`,
`order_status := "pending"`. -/
def handleRazorpayOrderPayload (total : ℚ) : NewOrderPayload :=
  { subtotal := total
    shipping_cost := shippingCost
    cod_charge := 0
    total := finalTotalOf "razorpay" total
    payment_method := "razorpay"
    payment_status := "pending"
    order_status := "pending" }

/- ===================== Exchanges (app/api/exchanges/route.ts) ===================== -/

/-- The exchange-request statuses the create-exchange endpoint treats as
active (non-terminal): the `.in("status", ...)` filter of `checkEligibility`. -/
def activeExchangeStatuses : List String :=
  ["pending", "approved", "processing", "shipped"]

/-- The order fields `checkEligibility` reads. -/
structure EOrder where
  order_status : String
  payment_status : String
  delivered_at : Option Int
deriving Repr, DecidableEq

/-- Database environment of `checkEligibility`: the order looked up by
id/user (or none), the statuses of all exchange-request rows for that order,
and the current time in milliseconds. -/
structure EligEnv where
  order : Option EOrder
  exchangeStatuses : List String
  now : Int
deriving Repr, DecidableEq

/-- Result record of `checkEligibility`. -/
structure Eligibility where
  eligible : Bool
  reason : Option String
  daysRemaining : Option Int
deriving Repr, DecidableEq

/-- Milliseconds per day (`1000 * 60 * 60 * 24`). -/
def msPerDay : Int := 1000 * 60 * 60 * 24

/-- `checkEligibility` of the create-exchange endpoint: order must exist, no
active exchange request may exist, order must be `delivered` and `paid`, a
delivery date must be recorded, and `Math.floor` of the elapsed days since
delivery must not exceed 30. -/
def checkEligibility (env : EligEnv) : Eligibility :=
  match env.order with
  | none => { eligible := false, reason := some "Order not found", daysRemaining := none }
  | some order =>
    let active := env.exchangeStatuses.filter (fun s => activeExchangeStatuses.contains s)
    if active ≠ [] then
      { eligible := false
        reason := some "An exchange request for this order is already active."
        daysRemaining := none }
    else if order.order_status ≠ "delivered" then
      { eligible := false
        reason := some "Only delivered orders can be exchanged"
        daysRemaining := none }
    else if order.payment_status ≠ "paid" then
      { eligible := false
        reason := some "Order must be fully paid"
        daysRemaining := none }
    else
      match order.delivered_at with
      | none =>
        { eligible := false
          reason := some "Delivery date not recorded"
          daysRemaining := none }
      | some deliveredAt =>
        let daysSinceDelivery := Int.fdiv (env.now - deliveredAt) msPerDay
        if daysSinceDelivery > 30 then
          { eligible := false
            reason := some "Exchange window expired (30 days from delivery)"
            daysRemaining := none }
        else
          { eligible := true, reason := none, daysRemaining := some (30 - daysSinceDelivery) }

/-- An exchange line item, with the fields `validateSameProduct` inspects. -/
structure ExchangeItem where
  product_id : Int
  size : String
  color : String
  quantity : Int
deriving Repr, DecidableEq

/-- The positional loop of `validateSameProduct` over the two item lists. -/
def validateItemsLoop : List ExchangeItem → List ExchangeItem → Bool × Option String
  | [], [] => (true, none)
  | orig :: origs, req :: reqs =>
    if orig.product_id ≠ req.product_id then
      (false, some "Product exchange not allowed. Only size or color can be changed.")
    else if orig.quantity ≠ req.quantity then
      (false, some "Quantity cannot be changed.")
    else if orig.size = req.size ∧ orig.color = req.color then
      (false, some "Please select a different size or color.")
    else
      validateItemsLoop origs reqs
  | _, _ => (false, some "Item count mismatch")

/-- `validateSameProduct`: lists of equal length, positionally same product
and quantity, and at each position size or color changed. -/
def validateSameProduct (originalItems requestedItems : List ExchangeItem) :
    Bool × Option String :=
  if originalItems.length ≠ requestedItems.length then
    (false, some "Item count mismatch")
  else
    validateItemsLoop originalItems requestedItems

/-- The acceptance condition of an original/requested item pair, stated from
the specification's words: same product, same quantity, and size or color
changed. -/
def exchangePairOk (pr : ExchangeItem × ExchangeItem) : Prop :=
  pr.1.product_id = pr.2.product_id ∧ pr.1.quantity = pr.2.quantity ∧
    ¬(pr.1.size = pr.2.size ∧ pr.1.color = pr.2.color)

/-- Environment of the create-exchange `POST`: the eligibility environment,
whether the request body passes the shape guard, and the submitted item
lists. -/
structure CreateExchangeEnv where
  elig : EligEnv
  validBody : Bool
  original_items : List ExchangeItem
  requested_items : List ExchangeItem
deriving Repr, DecidableEq

/-- The create-exchange `POST`: reject on bad body, failed eligibility or
failed validation; otherwise insert a new exchange-request row with status
`"pending"`. Returns whether the request was accepted and the exchange-request
status list after the call. -/
def createExchangePOST (env : CreateExchangeEnv) : Bool × List String :=
  if env.validBody = false then
    (false, env.elig.exchangeStatuses)
  else if (checkEligibility env.elig).eligible = false then
    (false, env.elig.exchangeStatuses)
  else if (validateSameProduct env.original_items env.requested_items).1 = false then
    (false, env.elig.exchangeStatuses)
  else
    (true, "pending" :: env.elig.exchangeStatuses)

/-- Number of active (non-terminal) exchange requests in a status list. -/
def countActive (statuses : List String) : Nat :=
  (statuses.filter (fun s => activeExchangeStatuses.contains s)).length

/- ===================== Carrier client token handling (lib/shiprocket/client.ts) ===================== -/

/-- The token-caching fields of `ShipRocketClient`. -/
structure ClientTokenState where
  token : Option String
  tokenExpiry : Option Int
deriving Repr, DecidableEq

/-- Expiry timestamp `authenticate` stores:
`Date.now() + 9 * 24 * 60 * 60 * 1000` (the code comment reads: token
expires in 10 days, set expiry to 9 days to be safe). -/
def tokenStoredExpiry (now : Int) : Int :=
  now + 9 * 24 * 60 * 60 * 1000

/-- The token's real expiry per the carrier contract stated in the code
comment: 10 days after issuance. -/
def tokenRealExpiry (now : Int) : Int :=
  now + 10 * 24 * 60 * 60 * 1000

/-- Client state after a successful `authenticate` at time `now`. -/
def authenticateState (now : Int) (freshToken : String) : ClientTokenState :=
  { token := some freshToken, tokenExpiry := some (tokenStoredExpiry now) }

/-- The re-authentication condition of `getToken`:
`!this.token || !this.tokenExpiry || new Date() >= this.tokenExpiry`. -/
def needsReauth (st : ClientTokenState) (now : Int) : Bool :=
  st.token.isNone || st.tokenExpiry.isNone ||
    (match st.tokenExpiry with
     | some e => decide (e ≤ now)
     | none => true)

/-- `getToken`: authenticate when needed, else return the cached token
unchanged. -/
def getToken (st : ClientTokenState) (now : Int) (freshToken : String) :
    String × ClientTokenState :=
  if needsReauth st now then
    (freshToken, authenticateState now freshToken)
  else
    (st.token.getD "", st)

/- ===================== Courier selection and AWB generation (lib/shiprocket/orderService.ts) ===================== -/

/-- A courier company row of the serviceability response. -/
structure Courier where
  courier_company_id : Int
  courier_name : String
  rate : ℚ
deriving Repr, DecidableEq

/-- Insertion step of the rate-ascending sort. -/
def insertByRate (c : Courier) : List Courier → List Courier
  | [] => [c]
  | d :: ds => if c.rate ≤ d.rate then c :: d :: ds else d :: insertByRate c ds

/-- The `sort((a, b) => a.rate - b.rate)` on the available couriers, modelled
as an insertion sort by rate ascending. -/
def sortByRate : List Courier → List Courier
  | [] => []
  | c :: cs => insertByRate c (sortByRate cs)

/-- Courier chosen in `generateAWBForOrder` when the serviceability call
succeeds: the head of the rate-sorted list, if any. -/
def selectCourier (couriers : List Courier) : Option Courier :=
  (sortByRate couriers).head?

/-- A side effect of the ShipRocket order service: an outbound carrier API
call, a write to the `orders` row, or an insert into `shiprocket_logs`
(action, status). -/
inductive SREffect
  | carrierCall (endpoint : String)
  | orderWrite
  | logRow (action : String) (status : String)
deriving Repr, DecidableEq

/-- The fields of the AWB response body `generateAWBForOrder` extracts. -/
structure AWBResp where
  awb_code : Option String
  courier_name_resp : Option String
  courier_company_id_resp : Option Int
deriving Repr, DecidableEq

/-- Environment of `generateAWBForOrder`: the order row fields it reads, the
outcome of the serviceability call, and the outcome of the AWB-assign call. -/
structure AWBEnv where
  orderFound : Bool
  existing_awb : Option String
  couriersResult : Except String (List Courier)
  awbApiResult : Except String AWBResp
deriving Repr

/-- Result value of `generateAWBForOrder` (it returns `null` on caught
errors, never throws). -/
structure AWBResult where
  awb_code : String
  courier_name_out : String
deriving Repr, DecidableEq

/-- `generateAWBForOrder`: look up the order; return the existing AWB if one
is recorded; pick the cheapest serviceable courier when that call succeeds
(falling back to carrier auto-assignment when it fails or is empty); call the
AWB-assign endpoint; on success write the AWB to the order and log success;
any thrown error is caught, logged to `shiprocket_logs` with status
`"error"`, and `none` is returned. -/
def generateAWBForOrder (env : AWBEnv) : Option AWBResult × List SREffect :=
  if env.orderFound = false then
    (none, [SREffect.logRow "generate_awb" "error"])
  else
    match env.existing_awb with
    | some awb => (some { awb_code := awb, courier_name_out := "Existing" }, [])
    | none =>
      let chosen : Option Courier :=
        match env.couriersResult with
        | Except.error _ => none
        | Except.ok couriers => selectCourier couriers
      let assignCall : SREffect :=
        match chosen with
        | some c => SREffect.carrierCall ("assign_awb:" ++ toString c.courier_company_id)
        | none => SREffect.carrierCall "assign_recommend"
      match env.awbApiResult with
      | Except.error _ =>
        (none, [SREffect.carrierCall "serviceability", assignCall,
                SREffect.logRow "generate_awb" "error"])
      | Except.ok resp =>
        match resp.awb_code with
        | none =>
          (none, [SREffect.carrierCall "serviceability", assignCall,
                  SREffect.logRow "generate_awb" "error"])
        | some code =>
          (some { awb_code := code
                  courier_name_out := (resp.courier_name_resp.getD "Unknown") },
           [SREffect.carrierCall "serviceability", assignCall,
            SREffect.orderWrite, SREffect.logRow "generate_awb" "success"])

/- ===================== createShipRocketOrder (lib/shiprocket/orderService.ts) ===================== -/

/-- Shipping address fields `createShipRocketOrder` validates (a JS falsy,
i.e. empty, `first_name` or `phone` is invalid). -/
structure SRShippingAddress where
  first_name : String
  phone : String
  postal_code : String
deriving Repr, DecidableEq

/-- An order line item as read by the order service. -/
structure SROrderItem where
  product_id : String
  quantity : Int
  price : ℚ
deriving Repr, DecidableEq

/-- The order row fields `createShipRocketOrder` reads. -/
structure SROrderRow where
  id : String
  order_number : String
  shiprocket_order_id : Option String
  items : List SROrderItem
  shipping_address : Option SRShippingAddress
  payment_method : String
  cod_charge : Option ℚ
deriving Repr, DecidableEq

/-- The fields of the carrier's create-order response the service checks. -/
structure SRCreateResp where
  resp_order_id : Option Int
  resp_shipment_id : Option Int
  resp_status : Option String
deriving Repr, DecidableEq

/-- Environment of `createShipRocketOrder`: the order row looked up by id,
the outcome of the carrier create-order call, and the environment of the
follow-up AWB generation. -/
structure CreateSREnv where
  order : Option SROrderRow
  createResp : Except String SRCreateResp
  awbEnv : AWBEnv
deriving Repr

/-- Result value of a successful `createShipRocketOrder`. -/
structure CreateSRResult where
  success : Bool
  message : Option String
  shiprocket_order_id : Option String
  shiprocket_shipment_id : Option Int
deriving Repr, DecidableEq

/-- The ShipRocket payment method resolved from `order.payment_method`
(`resolveShipRocketPaymentMethod`). -/
def resolveShipRocketPaymentMethod (order : SROrderRow) : String :=
  if order.payment_method = "cod" then "COD" else "Prepaid"

/-- The COD charge placed into `transaction_charges` of the carrier payload:
`order.payment_method === "cod" ? (order.cod_charge ?? 100) : 0`. -/
def payloadCodCharge (order : SROrderRow) : ℚ :=
  if order.payment_method = "cod" then order.cod_charge.getD 100 else 0

/-- `createShipRocketOrder`: return early with "Order already synced" when the
order already carries a `shiprocket_order_id` (no carrier call, no write);
otherwise validate items and address, log a pending row, call the carrier,
check the response for `order_id` and `shipment_id`, write the carrier ids to
the order, log success, and attempt AWB generation. Thrown errors are logged
by the outer catch and re-thrown (`Except.error`). -/
def createShipRocketOrder (env : CreateSREnv) : Except String CreateSRResult × List SREffect :=
  match env.order with
  | none =>
    (Except.error "Order not found", [SREffect.logRow "create_order" "error"])
  | some order =>
    match order.shiprocket_order_id with
    | some sid =>
      (Except.ok { success := true
                   message := some "Order already synced"
                   shiprocket_order_id := some sid
                   shiprocket_shipment_id := none }, [])
    | none =>
      if order.items = [] then
        (Except.error "Order has no items", [SREffect.logRow "create_order" "error"])
      else
        match order.shipping_address with
        | none =>
          (Except.error "Invalid shipping address", [SREffect.logRow "create_order" "error"])
        | some addr =>
          if addr.first_name = "" ∨ addr.phone = "" then
            (Except.error "Invalid shipping address", [SREffect.logRow "create_order" "error"])
          else
            match env.createResp with
            | Except.error msg =>
              (Except.error ("ShipRocket API call failed: " ++ msg),
               [SREffect.logRow "create_order" "pending",
                SREffect.carrierCall "create_order",
                SREffect.logRow "create_order_api_error" "error",
                SREffect.logRow "create_order" "error"])
            | Except.ok resp =>
              match resp.resp_order_id with
              | none =>
                (Except.error "ShipRocket returned invalid response",
                 [SREffect.logRow "create_order" "pending",
                  SREffect.carrierCall "create_order",
                  SREffect.logRow "create_order_failed" "error",
                  SREffect.logRow "create_order" "error"])
              | some oid =>
                match resp.resp_shipment_id with
                | none =>
                  (Except.error "ShipRocket returned order_id but no shipment_id",
                   [SREffect.logRow "create_order" "pending",
                    SREffect.carrierCall "create_order",
                    SREffect.logRow "create_order_no_shipment" "error",
                    SREffect.logRow "create_order" "error"])
                | some shid =>
                  let awbTrace := (generateAWBForOrder env.awbEnv).2
                  (Except.ok { success := true
                               message := none
                               shiprocket_order_id := some (toString oid)
                               shiprocket_shipment_id := some shid },
                   [SREffect.logRow "create_order" "pending",
                    SREffect.carrierCall "create_order",
                    SREffect.orderWrite,
                    SREffect.logRow "create_order" "success"] ++ awbTrace)

/- ===================== Razorpay payment webhook (app/api/webhooks/razorpay/route.ts) ===================== -/

/-- `verifyWebhookSignature`: the hex HMAC-SHA256 of the raw body under the
webhook secret must equal the carried signature. The HMAC primitive (an
external crypto library call) is passed in as a function `secret → body →
digest`. -/
def verifyWebhookSignature (hmac : String → String → String)
    (body signature secret : String) : Bool :=
  hmac secret body == signature

/-- The payment entity of a Razorpay webhook event. -/
structure PaymentEntity where
  payment_id : String
  razorpay_order_id : String
deriving Repr, DecidableEq

/-- A parsed Razorpay webhook event after the shape guard: the two handled
event types, or any other event name. -/
inductive RzpEvent
  | captured (p : PaymentEntity)
  | failed (p : PaymentEntity)
  | other (event : String)
deriving Repr, DecidableEq

/-- Side effects of the Razorpay webhook handlers: an `orders` write, a call
to `createShipRocketOrder`, or a `shiprocket_logs` insert. -/
inductive RzpEffect
  | orderUpdate
  | shipmentCreate
  | logInsert
deriving Repr, DecidableEq

/-- The order row found by `handlePaymentCaptured`. -/
structure WebhookOrderRow where
  id : String
  order_number : String
  shiprocket_order_id : Option String
  payment_status : String
deriving Repr, DecidableEq

/-- Result record of a webhook handler. -/
structure WebhookResult where
  success : Bool
  error : Option String
deriving Repr, DecidableEq

/-- Database environment of `handlePaymentCaptured`: the order found by
`razorpay_order_id`, whether the payment-status update fails, and the outcome
of `createShipRocketOrder` (success flag, or thrown). -/
structure CapturedEnv where
  findOrder : Option WebhookOrderRow
  updateFails : Bool
  shipCreate : Except String Bool
deriving Repr

/-- `handlePaymentCaptured`: find the order; short-circuit when already paid
and synced; mark the order paid; create the ShipRocket order when missing,
logging (not failing) when that throws. -/
def handlePaymentCaptured (env : CapturedEnv) (_p : PaymentEntity) :
    WebhookResult × List RzpEffect :=
  match env.findOrder with
  | none => ({ success := false, error := some "Order not found" }, [])
  | some order =>
    if order.payment_status = "paid" ∧ order.shiprocket_order_id.isSome then
      ({ success := true, error := none }, [])
    else if env.updateFails then
      ({ success := false, error := some "update failed" }, [RzpEffect.orderUpdate])
    else
      match order.shiprocket_order_id with
      | some _ => ({ success := true, error := none }, [RzpEffect.orderUpdate])
      | none =>
        match env.shipCreate with
        | Except.ok _ =>
          ({ success := true, error := none },
           [RzpEffect.orderUpdate, RzpEffect.shipmentCreate])
        | Except.error _ =>
          ({ success := true, error := none },
           [RzpEffect.orderUpdate, RzpEffect.shipmentCreate, RzpEffect.logInsert])

/-- Database environment of `handlePaymentFailed`. -/
structure FailedEnv where
  updateFails : Bool
deriving Repr, DecidableEq

/-- `handlePaymentFailed`: mark the order `payment_failed`. -/
def handlePaymentFailed (env : FailedEnv) (_p : PaymentEntity) :
    WebhookResult × List RzpEffect :=
  if env.updateFails then
    ({ success := false, error := some "update failed" }, [RzpEffect.orderUpdate])
  else
    ({ success := true, error := none }, [RzpEffect.orderUpdate])

/-- Environment of the Razorpay webhook `POST`: the HMAC primitive, the
configured secret, the JSON parse plus shape guard, and the handler
environments. -/
structure RzpWebhookEnv where
  hmac : String → String → String
  webhookSecret : Option String
  parseEvent : String → Option RzpEvent
  capturedEnv : CapturedEnv
  failedEnv : FailedEnv

/-- An inbound webhook request: raw body and the optional
`x-razorpay-signature` header. -/
structure RzpRequest where
  rawBody : String
  signature : Option String
deriving Repr, DecidableEq

/-- The Razorpay webhook `POST`: 400 when the signature header is absent, 500
when no secret is configured (thrown, caught), 401 when the HMAC check fails,
400 when the payload fails the shape guard; otherwise dispatch on the event
type (unhandled events are acknowledged with 200 and no effects). Returns the
HTTP status and the effect trace. -/
def razorpayWebhookPOST (env : RzpWebhookEnv) (req : RzpRequest) :
    Nat × List RzpEffect :=
  match req.signature with
  | none => (400, [])
  | some signature =>
    match env.webhookSecret with
    | none => (500, [])
    | some secret =>
      if verifyWebhookSignature env.hmac req.rawBody signature secret then
        match env.parseEvent req.rawBody with
        | none => (400, [])
        | some (RzpEvent.captured p) =>
          let r := handlePaymentCaptured env.capturedEnv p
          (if r.1.success then 200 else 500, r.2)
        | some (RzpEvent.failed p) =>
          let r := handlePaymentFailed env.failedEnv p
          (if r.1.success then 200 else 500, r.2)
        | some (RzpEvent.other _) => (200, [])
      else
        (401, [])

/- ===================== verify-payment route (app/api/razorpay/verify-payment/route.ts) ===================== -/

/-- The request body of the verify-payment route after the shape guard. -/
structure VerifyPayload where
  razorpay_order_id : String
  razorpay_payment_id : String
  razorpay_signature : String
  order_id : String
deriving Repr, DecidableEq

/-- Environment of the verify-payment `POST`: rate-limit outcome, parsed
body, configured key secret, the `verifyRazorpaySignature` primitive (an
external library call, a function of the payload and the secret), the outcome
of `updateOrderPayment`, and the outcome of `createShipRocketOrder`. -/
structure VerifyEnv where
  rateLimitOk : Bool
  body : Option VerifyPayload
  keySecret : Option String
  signatureValid : VerifyPayload → String → Bool
  updateResult : Except String Unit
  shipCreate : Except String Bool

/-- Response summary of the verify-payment route: HTTP status, the `success`
flag of the JSON envelope, and whether the order row was updated to paid. -/
structure VerifyResponse where
  status : Nat
  success : Bool
  orderUpdated : Bool
deriving Repr, DecidableEq

/-- The verify-payment `POST`: 429 when rate-limited; 400 on a malformed
body; 500 when the key secret is missing (thrown); 400 with `success: false`
and no order update when the payment signature is invalid; 500 when the
database update fails; and `success: true` (200) once the order is marked
paid, whether `createShipRocketOrder` succeeds, reports failure, or throws. -/
def verifyPaymentPOST (env : VerifyEnv) : VerifyResponse :=
  if env.rateLimitOk = false then
    { status := 429, success := false, orderUpdated := false }
  else
    match env.body with
    | none => { status := 400, success := false, orderUpdated := false }
    | some payload =>
      match env.keySecret with
      | none => { status := 500, success := false, orderUpdated := false }
      | some secret =>
        if env.signatureValid payload secret = false then
          { status := 400, success := false, orderUpdated := false }
        else
          match env.updateResult with
          | Except.error _ => { status := 500, success := false, orderUpdated := false }
          | Except.ok _ =>
            match env.shipCreate with
            | Except.ok _ => { status := 200, success := true, orderUpdated := true }
            | Except.error _ => { status := 200, success := true, orderUpdated := true }

/- ===================== Claim theorems ===================== -/

/-- C3: a COD checkout order is created with `order_status = "confirmed"`,
`payment_status = "pending"` and `cod_charge = 100`, its total carrying the
100 fee on top of subtotal and shipping; a Razorpay checkout order is created
with `order_status = "pending"`, `payment_status = "pending"` and
`cod_charge = 0`. -/
theorem checkout_order_fields (total : ℚ) :
    (handleCODOrderPayload total).order_status = "confirmed" ∧
    (handleCODOrderPayload total).payment_status = "pending" ∧
    (handleCODOrderPayload total).cod_charge = 100 ∧
    (handleCODOrderPayload total).total =
      (handleCODOrderPayload total).subtotal +
        (handleCODOrderPayload total).shipping_cost + 100 ∧
    (handleRazorpayOrderPayload total).order_status = "pending" ∧
    (handleRazorpayOrderPayload total).payment_status = "pending" ∧
    (handleRazorpayOrderPayload total).cod_charge = 0 := by
  refine ⟨rfl, rfl, rfl, ?_, rfl, rfl, rfl⟩
  simp [handleCODOrderPayload, finalTotalOf, codChargeOf, COD_FEE, shippingCost]

/-- C4 counterexample: the string `"delivered"` is not a key of the fixed
lookup table, yet the code does not map it to `"processing"` (the lookup is
applied to the uppercased input), refuting the claim that every string not in
the table maps to `"processing"`. -/
theorem mapStatus_lowercase_counterexample :
    statusMap.lookup "delivered" = none ∧
    mapShipRocketStatus "delivered" ≠ "processing" := by
  decide

/-- C4 (amended): each of the ten known carrier status strings maps to
exactly one internal status per the fixed lookup table; every string whose
ASCII-uppercased form is not a key of the table maps to `"processing"`; and
the carrier webhook sets the order's `order_status` to the mapped value. -/
theorem mapShipRocketStatus_spec :
    (mapShipRocketStatus "PICKUP SCHEDULED" = "ready_to_ship" ∧
     mapShipRocketStatus "PICKED UP" = "shipped" ∧
     mapShipRocketStatus "IN TRANSIT" = "shipped" ∧
     mapShipRocketStatus "OUT FOR DELIVERY" = "out_for_delivery" ∧
     mapShipRocketStatus "DELIVERED" = "delivered" ∧
     mapShipRocketStatus "RTO IN TRANSIT" = "return_in_transit" ∧
     mapShipRocketStatus "RTO DELIVERED" = "returned" ∧
     mapShipRocketStatus "CANCELLED" = "cancelled" ∧
     mapShipRocketStatus "LOST" = "lost" ∧
     mapShipRocketStatus "DAMAGED" = "damaged") ∧
    (∀ s : String, statusMap.lookup (upperAscii s) = none →
       mapShipRocketStatus s = "processing") ∧
    (∀ (order : OrderRow) (b : SRWebhookBody) (now : Int),
       (shiprocketWebhookUpdate order b now).order_status =
         mapShipRocketStatus (rawStatusOf b)) := by
  refine ⟨by decide, ?_, ?_⟩
  · intro s h
    simp [mapShipRocketStatus, h]
  · intro order b now
    rfl

/-- C4 witness: a concrete unknown status string maps to `"processing"`. -/
theorem mapShipRocketStatus_spec_witness :
    mapShipRocketStatus "UNKNOWN STATUS" = "processing" :=
  mapShipRocketStatus_spec.2.1 "UNKNOWN STATUS" (by decide)

/-- C9 counterexample: a carrier webhook delivery carrying `"IN TRANSIT"`
moves an order whose status is `"delivered"` back to `"shipped"`, so webhook
deliveries do not keep `order_status` monotone in the shipment ordering. -/
theorem webhook_backward_transition_counterexample :
    deliveredOrderRow.order_status = "delivered" ∧
    (shiprocketWebhookUpdate deliveredOrderRow inTransitBody 300).order_status = "shipped" ∧
    shipmentRank "shipped" < shipmentRank "delivered" := by
  decide

/-- C9 (amended): the carrier webhook enforces no monotonicity: it always
sets `order_status` to the mapped value of the incoming carrier status,
independently of the order's current status, so statuses move backward
whenever carrier statuses arrive out of order. -/
theorem webhook_status_overwrite (order : OrderRow) (b : SRWebhookBody) (now : Int) :
    (shiprocketWebhookUpdate order b now).order_status =
      mapShipRocketStatus (rawStatusOf b) ∧
    (shiprocketWebhookUpdate order b now).order_status =
      (shiprocketWebhookUpdate { order with order_status := "delivered" } b now).order_status :=
  ⟨rfl, rfl⟩

/-- C1: for every Razorpay webhook request whose HMAC-SHA256 of the raw body
under the configured secret differs from the carried signature, the handler
answers 401 with an empty effect trace — no order update and no shipment
creation — regardless of the event the payload would parse to; a request with
no signature header is answered 400, likewise effect-free. -/
theorem razorpay_webhook_auth (env : RzpWebhookEnv) (req : RzpRequest) :
    (∀ signature secret, req.signature = some signature →
       env.webhookSecret = some secret →
       env.hmac secret req.rawBody ≠ signature →
       razorpayWebhookPOST env req = (401, [])) ∧
    (req.signature = none → razorpayWebhookPOST env req = (400, [])) := by
  constructor
  · intro signature secret hsig hsec hne
    simp [razorpayWebhookPOST, hsig, hsec, verifyWebhookSignature, hne]
  · intro hnone
    simp [razorpayWebhookPOST, hnone]

/-- C1 witness: a concrete request with a wrong signature is rejected 401
with no effects, and the same request without the header is rejected 400. -/
theorem razorpay_webhook_auth_witness :
    razorpayWebhookPOST
      { hmac := fun secret body => secret ++ body
        webhookSecret := some "whsec"
        parseEvent := fun _ => some (RzpEvent.other "payment.authorized")
        capturedEnv := { findOrder := none, updateFails := false, shipCreate := Except.ok true }
        failedEnv := { updateFails := false } }
      { rawBody := "{}", signature := some "bogus" } = (401, []) ∧
    razorpayWebhookPOST
      { hmac := fun secret body => secret ++ body
        webhookSecret := some "whsec"
        parseEvent := fun _ => some (RzpEvent.other "payment.authorized")
        capturedEnv := { findOrder := none, updateFails := false, shipCreate := Except.ok true }
        failedEnv := { updateFails := false } }
      { rawBody := "{}", signature := none } = (400, []) :=
  ⟨(razorpay_webhook_auth _ _).1 "bogus" "whsec" rfl rfl (by decide),
   (razorpay_webhook_auth _ _).2 rfl⟩

/-- C2: in the post-payment flow, shipment-creation and AWB-generation
failures are non-fatal while a signature failure is fatal: once the payment
signature verifies and the order is marked paid, verify-payment returns
`success: true` (200) even when `createShipRocketOrder` throws;
`generateAWBForOrder` catches a thrown AWB error, appends an error row to
`shiprocket_logs`, and returns `none` instead of throwing; and an invalid
payment signature yields a non-success 400 response with no order update. -/
theorem postpayment_failure_policy (env : VerifyEnv) (awbEnv : AWBEnv) :
    (∀ payload secret errMsg, env.rateLimitOk = true → env.body = some payload →
       env.keySecret = some secret → env.signatureValid payload secret = true →
       env.updateResult = Except.ok () → env.shipCreate = Except.error errMsg →
       verifyPaymentPOST env = { status := 200, success := true, orderUpdated := true }) ∧
    (∀ msg, awbEnv.orderFound = true → awbEnv.existing_awb = none →
       awbEnv.awbApiResult = Except.error msg →
       (generateAWBForOrder awbEnv).1 = none ∧
       SREffect.logRow "generate_awb" "error" ∈ (generateAWBForOrder awbEnv).2) ∧
    (∀ payload secret, env.rateLimitOk = true → env.body = some payload →
       env.keySecret = some secret → env.signatureValid payload secret = false →
       verifyPaymentPOST env = { status := 400, success := false, orderUpdated := false }) := by
  refine ⟨?_, ?_, ?_⟩
  · intro payload secret errMsg hrl hb hk hs hu hc
    simp [verifyPaymentPOST, hrl, hb, hk, hs, hu, hc]
  · intro msg hfound hawb happ
    simp [generateAWBForOrder, hfound, hawb, happ]
  · intro payload secret hrl hb hk hs
    simp [verifyPaymentPOST, hrl, hb, hk, hs]

/-- C2 witness: concrete environments exercising all three branches. -/
theorem postpayment_failure_policy_witness :
    verifyPaymentPOST
      { rateLimitOk := true
        body := some { razorpay_order_id := "ord_1", razorpay_payment_id := "pay_1",
                       razorpay_signature := "sig", order_id := "o1" }
        keySecret := some "key"
        signatureValid := fun _ _ => true
        updateResult := Except.ok ()
        shipCreate := Except.error "carrier down" } =
      { status := 200, success := true, orderUpdated := true } ∧
    ((generateAWBForOrder
        { orderFound := true, existing_awb := none,
          couriersResult := Except.ok [],
          awbApiResult := Except.error "awb failed" }).1 = none ∧
     SREffect.logRow "generate_awb" "error" ∈
       (generateAWBForOrder
         { orderFound := true, existing_awb := none,
           couriersResult := Except.ok [],
           awbApiResult := Except.error "awb failed" }).2) ∧
    verifyPaymentPOST
      { rateLimitOk := true
        body := some { razorpay_order_id := "ord_1", razorpay_payment_id := "pay_1",
                       razorpay_signature := "sig", order_id := "o1" }
        keySecret := some "key"
        signatureValid := fun _ _ => false
        updateResult := Except.ok ()
        shipCreate := Except.error "carrier down" } =
      { status := 400, success := false, orderUpdated := false } :=
  ⟨(postpayment_failure_policy _
      { orderFound := true, existing_awb := none,
        couriersResult := Except.ok [], awbApiResult := Except.error "awb failed" }).1
      _ "key" "carrier down" rfl rfl rfl rfl rfl rfl,
   (postpayment_failure_policy
      { rateLimitOk := true
        body := some { razorpay_order_id := "ord_1", razorpay_payment_id := "pay_1",
                       razorpay_signature := "sig", order_id := "o1" }
        keySecret := some "key"
        signatureValid := fun _ _ => true
        updateResult := Except.ok ()
        shipCreate := Except.error "carrier down" } _).2.1
      "awb failed" rfl rfl rfl,
   (postpayment_failure_policy _
      { orderFound := true, existing_awb := none,
        couriersResult := Except.ok [], awbApiResult := Except.error "awb failed" }).2.2
      _ "key" rfl rfl rfl rfl⟩

/-- C10: `createShipRocketOrder` on an order that already carries a
`shiprocket_order_id` returns success with message "Order already synced" and
the existing id, with an empty effect trace — no carrier API call, no order
write, no log row — so a repeated webhook or admin retry creates no duplicate
shipment. -/
theorem createShipRocketOrder_idempotent (env : CreateSREnv) (order : SROrderRow)
    (sid : String) (horder : env.order = some order)
    (hsid : order.shiprocket_order_id = some sid) :
    createShipRocketOrder env =
      (Except.ok { success := true
                   message := some "Order already synced"
                   shiprocket_order_id := some sid
                   shiprocket_shipment_id := none }, []) := by
  simp [createShipRocketOrder, horder, hsid]

/-- C10 witness: a concrete already-synced order takes the early return. -/
theorem createShipRocketOrder_idempotent_witness :
    createShipRocketOrder
      { order := some { id := "o1", order_number := "MK-1001",
                        shiprocket_order_id := some "SR-77",
                        items := [{ product_id := "p1", quantity := 1, price := 499 }],
                        shipping_address := some { first_name := "A", phone := "9", postal_code := "400084" },
                        payment_method := "razorpay", cod_charge := some 0 }
        createResp := Except.error "unreached"
        awbEnv := { orderFound := true, existing_awb := none,
                    couriersResult := Except.ok [], awbApiResult := Except.error "unreached" } } =
      (Except.ok { success := true
                   message := some "Order already synced"
                   shiprocket_order_id := some "SR-77"
                   shiprocket_shipment_id := none }, []) :=
  createShipRocketOrder_idempotent _ _ "SR-77" rfl rfl

/-- C8 counterexample: `authenticate` stores an expiry one day before the
real 10-day expiry (nine days after issuance), not approximately nine days
before it: the margin between the real expiry and the stored refresh point is
a single day, nowhere near eight days. -/
theorem token_expiry_margin_counterexample :
    tokenRealExpiry 0 - tokenStoredExpiry 0 = 24 * 60 * 60 * 1000 ∧
    ¬ (8 * (24 * 60 * 60 * 1000) ≤ tokenRealExpiry 0 - tokenStoredExpiry 0) := by
  decide

/-- C8 (amended): `getToken` re-authenticates exactly when no token or no
expiry is cached or the current time is at or past the stored expiry, and
`authenticate` stores expiry = issuance + 9 days — one day before the real
10-day expiry, i.e. the client refreshes ~9 days after issuance. -/
theorem getToken_refresh_spec :
    (∀ (st : ClientTokenState) (now : Int),
       needsReauth st now = true ↔
         st.token = none ∨ st.tokenExpiry = none ∨
           ∃ e, st.tokenExpiry = some e ∧ e ≤ now) ∧
    (∀ (st : ClientTokenState) (now : Int) (tok : String),
       (needsReauth st now = true →
          getToken st now tok = (tok, authenticateState now tok)) ∧
       (needsReauth st now = false →
          getToken st now tok = (st.token.getD "", st))) ∧
    (∀ now : Int,
       tokenStoredExpiry now = now + 9 * msPerDay ∧
       tokenRealExpiry now - tokenStoredExpiry now = msPerDay) := by
  refine ⟨?_, ?_, ?_⟩
  · intro st now
    cases st with
    | mk token tokenExpiry =>
      cases token <;> cases tokenExpiry <;> simp [needsReauth]
  · intro st now tok
    constructor
    · intro h
      simp [getToken, h]
    · intro h
      simp [getToken, h]
  · intro now
    constructor
    · simp [tokenStoredExpiry, msPerDay]
    · simp [tokenRealExpiry, tokenStoredExpiry, msPerDay]

/-- C8 witness: a concrete cached token past its stored expiry forces a
re-authentication that stores expiry nine days out. -/
theorem getToken_refresh_spec_witness :
    needsReauth { token := some "t0", tokenExpiry := some 1000 } 1000 = true ∧
    getToken { token := some "t0", tokenExpiry := some 1000 } 1000 "t1" =
      ("t1", { token := some "t1", tokenExpiry := some (1000 + 9 * 24 * 60 * 60 * 1000) }) :=
  ⟨(getToken_refresh_spec.1 { token := some "t0", tokenExpiry := some 1000 } 1000).2
     (Or.inr (Or.inr ⟨1000, rfl, le_refl 1000⟩)),
   ((getToken_refresh_spec.2.1 { token := some "t0", tokenExpiry := some 1000 } 1000 "t1").1
     (by decide))⟩

theorem validateItemsLoop_true_iff : ∀ (o r : List ExchangeItem),
    (validateItemsLoop o r).1 = true ↔
      (o.length = r.length ∧ ∀ pr ∈ o.zip r, exchangePairOk pr) := by
  intro o
  induction o with
  | nil =>
    intro r
    cases r with
    | nil => simp [validateItemsLoop]
    | cons b rs => simp [validateItemsLoop]
  | cons a os ih =>
    intro r
    cases r with
    | nil => simp [validateItemsLoop]
    | cons b rs =>
      by_cases h1 : a.product_id = b.product_id
      · by_cases h2 : a.quantity = b.quantity
        · by_cases h3 : a.size = b.size ∧ a.color = b.color
          · simp [validateItemsLoop, h1, h2, h3, exchangePairOk]
          · simp [validateItemsLoop, h1, h2, h3, ih rs, exchangePairOk]
            intro _ _ hs hc
            exact h3 ⟨hs, hc⟩
        · simp [validateItemsLoop, h1, h2, exchangePairOk]
      · simp [validateItemsLoop, h1, exchangePairOk]

/-- C6: `validateSameProduct` accepts exactly when the two lists have equal
length and every position keeps product and quantity while changing size or
color; in particular it rejects a length mismatch, any product change, any
quantity change, and any position with both size and color unchanged. -/
theorem validateSameProduct_true_iff (orig req : List ExchangeItem) :
    (validateSameProduct orig req).1 = true ↔
      (orig.length = req.length ∧ ∀ pr ∈ orig.zip req, exchangePairOk pr) := by
  by_cases hlen : orig.length = req.length
  · simp [validateSameProduct, hlen, validateItemsLoop_true_iff]
  · simp [validateSameProduct, hlen]

theorem eligible_active_nil (env : EligEnv) :
    (checkEligibility env).eligible = true →
    env.exchangeStatuses.filter (fun s => activeExchangeStatuses.contains s) = [] := by
  intro h
  by_cases hact : env.exchangeStatuses.filter (fun s => activeExchangeStatuses.contains s) = []
  · exact hact
  · exfalso
    obtain ⟨x, hx⟩ := List.exists_mem_of_ne_nil _ hact
    have hx2 := List.mem_filter.mp hx
    have hex : ∃ x ∈ env.exchangeStatuses, x ∈ activeExchangeStatuses :=
      ⟨x, hx2.1, List.elem_iff.mp hx2.2⟩
    cases horder : env.order with
    | none => simp [checkEligibility, horder] at h
    | some o => simp [checkEligibility, horder, hex] at h

theorem countActive_cons_pending (l : List String) :
    countActive ("pending" :: l) = countActive l + 1 := by
  have hp : "pending" ∈ activeExchangeStatuses := by decide
  simp [countActive, List.filter_cons, hp]

/-- C5 counterexample: an order delivered 30 days and 12 hours before the
check — more than 30 days — is still reported eligible, because the code
floors the elapsed time to whole days and only rejects when that floor
exceeds 30. -/
theorem exchange_window_boundary_counterexample :
    ((2635200000 : Int) - 0 > 30 * msPerDay) ∧
    (checkEligibility
      { order := some { order_status := "delivered", payment_status := "paid",
                        delivered_at := some 0 },
        exchangeStatuses := [], now := 2635200000 }).eligible = true := by
  decide

/-- C5 (amended): the eligibility check returns `eligible = false` for every
order not in `delivered` status, for every order not `paid`, for every order
whose floored day count since delivery exceeds 30 (i.e. delivered at least 31
days before the check), and for every order with an exchange request in a
non-terminal status; and the create-exchange endpoint keeps the number of
active exchange requests per order at most one, an accepted request moving it
from zero to exactly one. -/
theorem checkEligibility_spec :
    (∀ (env : EligEnv) (o : EOrder), env.order = some o →
       o.order_status ≠ "delivered" → (checkEligibility env).eligible = false) ∧
    (∀ (env : EligEnv) (o : EOrder), env.order = some o →
       o.payment_status ≠ "paid" → (checkEligibility env).eligible = false) ∧
    (∀ (env : EligEnv) (o : EOrder) (d : Int), env.order = some o →
       o.delivered_at = some d → Int.fdiv (env.now - d) msPerDay > 30 →
       (checkEligibility env).eligible = false) ∧
    (∀ (env : EligEnv) (s : String), s ∈ env.exchangeStatuses →
       s ∈ activeExchangeStatuses → (checkEligibility env).eligible = false) ∧
    (∀ env : CreateExchangeEnv, countActive env.elig.exchangeStatuses ≤ 1 →
       countActive (createExchangePOST env).2 ≤ 1) ∧
    (∀ env : CreateExchangeEnv, (createExchangePOST env).1 = true →
       countActive env.elig.exchangeStatuses = 0 ∧
         countActive (createExchangePOST env).2 = 1) := by
  refine ⟨?_, ?_, ?_, ?_, ?_, ?_⟩
  · intro env o h hs
    by_cases hex : ∃ x ∈ env.exchangeStatuses, x ∈ activeExchangeStatuses
    · simp [checkEligibility, h, hex]
    · simp [checkEligibility, h, hex, hs]
  · intro env o h hp
    by_cases hex : ∃ x ∈ env.exchangeStatuses, x ∈ activeExchangeStatuses
    · simp [checkEligibility, h, hex]
    · by_cases hstat : o.order_status = "delivered"
      · simp [checkEligibility, h, hex, hstat, hp]
      · simp [checkEligibility, h, hex, hstat]
  · intro env o d h hd hw
    by_cases hex : ∃ x ∈ env.exchangeStatuses, x ∈ activeExchangeStatuses
    · simp [checkEligibility, h, hex]
    · by_cases hstat : o.order_status = "delivered"
      · by_cases hpaid : o.payment_status = "paid"
        · simp [checkEligibility, h, hex, hstat, hpaid, hd, hw]
        · simp [checkEligibility, h, hex, hstat, hpaid]
      · simp [checkEligibility, h, hex, hstat]
  · intro env s hs ha
    have hex : ∃ x ∈ env.exchangeStatuses, x ∈ activeExchangeStatuses := ⟨s, hs, ha⟩
    cases horder : env.order with
    | none => simp [checkEligibility, horder]
    | some o => simp [checkEligibility, horder, hex]
  · intro env h
    unfold createExchangePOST
    split_ifs with h1 h2 h3
    · exact h
    · exact h
    · exact h
    · have helig : (checkEligibility env.elig).eligible = true := by
        cases hb : (checkEligibility env.elig).eligible
        · exact absurd hb h2
        · rfl
      have hnil := eligible_active_nil _ helig
      have hzero : countActive env.elig.exchangeStatuses = 0 := by
        unfold countActive
        rw [hnil]
        rfl
      simp [countActive_cons_pending, hzero]
  · intro env
    unfold createExchangePOST
    split_ifs with h1 h2 h3
    · intro h
      simp at h
    · intro h
      simp at h
    · intro h
      simp at h
    · intro _
      have helig : (checkEligibility env.elig).eligible = true := by
        cases hb : (checkEligibility env.elig).eligible
        · exact absurd hb h2
        · rfl
      have hnil := eligible_active_nil _ helig
      have hzero : countActive env.elig.exchangeStatuses = 0 := by
        unfold countActive
        rw [hnil]
        rfl
      exact ⟨hzero, by simp [countActive_cons_pending, hzero]⟩

/-- C5 witness: a concrete not-yet-delivered order is ineligible. -/
theorem checkEligibility_spec_witness :
    (checkEligibility
      { order := some { order_status := "shipped", payment_status := "paid",
                        delivered_at := none },
        exchangeStatuses := [], now := 0 }).eligible = false :=
  checkEligibility_spec.1
    { order := some { order_status := "shipped", payment_status := "paid",
                      delivered_at := none },
      exchangeStatuses := [], now := 0 }
    { order_status := "shipped", payment_status := "paid", delivered_at := none }
    rfl (by decide)

theorem sortByRate_head_min : ∀ (l : List Courier), l ≠ [] →
    ∃ c, (sortByRate l).head? = some c ∧ c ∈ l ∧ ∀ x ∈ l, c.rate ≤ x.rate := by
  intro l
  induction l with
  | nil => intro h; exact absurd rfl h
  | cons a t ih =>
    intro _
    by_cases ht : t = []
    · subst ht
      exact ⟨a, by simp [sortByRate, insertByRate], by simp, by simp⟩
    · obtain ⟨m, hm, hmem, hmin⟩ := ih ht
      obtain ⟨rest, hrest⟩ : ∃ rest, sortByRate t = m :: rest := by
        cases hsort : sortByRate t with
        | nil => rw [hsort] at hm; simp at hm
        | cons x xs => rw [hsort] at hm; simp at hm; exact ⟨xs, by rw [hm]⟩
      by_cases hle : a.rate ≤ m.rate
      · refine ⟨a, ?_, List.mem_cons_self a t, ?_⟩
        · show (insertByRate a (sortByRate t)).head? = some a
          rw [hrest]; simp [insertByRate, hle]
        · intro x hx
          rcases List.mem_cons.mp hx with rfl | hx'
          · exact le_refl _
          · exact le_trans hle (hmin x hx')
      · refine ⟨m, ?_, List.mem_cons_of_mem _ hmem, ?_⟩
        · show (insertByRate a (sortByRate t)).head? = some m
          rw [hrest]; simp [insertByRate, hle]
        · intro x hx
          rcases List.mem_cons.mp hx with rfl | hx'
          · exact le_of_not_le hle
          · exact hmin x hx'

/-- C7: during AWB generation, when no courier is yet assigned and the
serviceability call returns a non-empty courier list, the courier selected
(the head of the rate-ascending sort) has minimal rate in that list, and the
AWB-assign call of the effect trace targets exactly that courier. -/
theorem generateAWB_cheapest_courier (env : AWBEnv) (cs : List Courier)
    (horder : env.orderFound = true) (hawb : env.existing_awb = none)
    (hcs : env.couriersResult = Except.ok cs) (hne : cs ≠ []) :
    ∃ c, selectCourier cs = some c ∧ c ∈ cs ∧ (∀ x ∈ cs, c.rate ≤ x.rate) ∧
      SREffect.carrierCall ("assign_awb:" ++ toString c.courier_company_id) ∈
        (generateAWBForOrder env).2 := by
  obtain ⟨c, hc, hmem, hmin⟩ := sortByRate_head_min cs hne
  have hsel : selectCourier cs = some c := hc
  refine ⟨c, hsel, hmem, hmin, ?_⟩
  unfold generateAWBForOrder
  rw [horder, hawb, hcs]
  simp only [hsel]
  cases env.awbApiResult with
  | error e => simp
  | ok resp =>
    cases hcode : resp.awb_code with
    | none => simp [hcode]
    | some code => simp [hcode]

/-- C7 witness: with two concrete couriers the cheaper one (rate 50 vs 80)
is selected and targeted by the AWB-assign call. -/
theorem generateAWB_cheapest_courier_witness :
    ∃ c, selectCourier
        [{ courier_company_id := 2, courier_name := "B", rate := 80 },
         { courier_company_id := 1, courier_name := "A", rate := 50 }] = some c ∧
      c ∈ [({ courier_company_id := 2, courier_name := "B", rate := 80 } : Courier),
           { courier_company_id := 1, courier_name := "A", rate := 50 }] ∧
      (∀ x ∈ [({ courier_company_id := 2, courier_name := "B", rate := 80 } : Courier),
              { courier_company_id := 1, courier_name := "A", rate := 50 }],
         c.rate ≤ x.rate) ∧
      SREffect.carrierCall ("assign_awb:" ++ toString c.courier_company_id) ∈
        (generateAWBForOrder
          { orderFound := true, existing_awb := none,
            couriersResult := Except.ok
              [{ courier_company_id := 2, courier_name := "B", rate := 80 },
               { courier_company_id := 1, courier_name := "A", rate := 50 }],
            awbApiResult := Except.ok
              { awb_code := some "AWB9", courier_name_resp := some "A",
                courier_company_id_resp := some 1 } }).2 :=
  generateAWB_cheapest_courier _ _ rfl rfl rfl (by decide)

/-- C6 witness: a concrete single-item size change is accepted. -/
theorem validateSameProduct_true_iff_witness :
    (validateSameProduct
      [{ product_id := 7, size := "M", color := "red", quantity := 1 }]
      [{ product_id := 7, size := "L", color := "red", quantity := 1 }]).1 = true :=
  (validateSameProduct_true_iff
    [{ product_id := 7, size := "M", color := "red", quantity := 1 }]
    [{ product_id := 7, size := "L", color := "red", quantity := 1 }]).mpr
    ⟨rfl, by simp [exchangePairOk]⟩
